import Mathlib

/-
Verification development for the laroux LRU cache (src/laroux/laroux.py).

The Python module defines a cache facade `LarouxCache` over a hash table
(a Python dict) and an intrusive doubly linked list `_LarouxCacheList`
with a sentinel node.  Here the linked list is embedded as the sequence
of its data nodes from front (most recently used) to back, together with
the list's own `_length` counter, which the source maintains separately
from the physical structure (`push` and `remove` update it; `pop` does
not).  The hash table is embedded as an association list without
duplicate keys, mirroring dict insertion-order semantics.  Dynamically
typed keys and values are embedded as `PyVal`.
-/

/-- Python values that occur as keys and values in the cache: `None`,
integers and strings.  Python equality across these types is structural
equality here (`1 == "a"` is false, `None == None` is true). -/
inductive PyVal where
  | none : PyVal
  | int : Int → PyVal
  | str : String → PyVal
  deriving DecidableEq

/-- Python truthiness for the embedded values: `bool(None)`, `bool(0)` and
`bool("")` are false, everything else is true.  Used by `__getitem__`,
whose guard is `if retval:`. -/
def PyVal.truthy : PyVal → Bool
  | PyVal.none => false
  | PyVal.int n => n != 0
  | PyVal.str s => s != ""

/-- `_ListNode`: one key-value record of the recency list.  The `prev` and
`next` pointers of the source are represented by the node's position in
the embedding's node sequence. -/
structure ListNode where
  key : PyVal
  value : PyVal
  deriving DecidableEq

/-- The sentinel node `_ListNode(None, None)` created in
`_LarouxCacheList.__init__`.  Reading `head.prev` or `head.next` of an
empty list yields this node in the source. -/
def sentinel : ListNode := { key := PyVal.none, value := PyVal.none }

/-- `dict.get(key, None)` on the embedded hash table: the first (unique)
binding of the key, if any. -/
def htGet : List (PyVal × PyVal) → PyVal → Option PyVal
  | [], _ => Option.none
  | (k, v) :: rest, needle => if k == needle then some v else htGet rest needle

/-- `self._hash_table[key] = value`: overwrite in place if the key is
bound, otherwise append (dict insertion order). -/
def htSet : List (PyVal × PyVal) → PyVal → PyVal → List (PyVal × PyVal)
  | [], k, v => [(k, v)]
  | (k0, v0) :: rest, k, v =>
      if k0 == k then (k, v) :: rest else (k0, v0) :: htSet rest k v

/-- `dict.pop(key, default)`: remove the binding of the key if present,
otherwise change nothing.  No error is raised either way, mirroring the
defaulted `pop` used by `_evict`. -/
def htPop : List (PyVal × PyVal) → PyVal → List (PyVal × PyVal)
  | [], _ => []
  | (k0, v0) :: rest, k =>
      if k0 == k then rest else (k0, v0) :: htPop rest k

/-- `_LarouxCacheList`: `nodes` are the data nodes from front to back
(excluding the sentinel); `listLen` is the list's own `_length` counter,
kept separately because the source lets it diverge from `nodes.length`
(`pop` removes a node without decrementing it). -/
structure LarouxCacheList where
  nodes : List ListNode
  listLen : Int
  deriving DecidableEq

/-- `_LarouxCacheList.__len__`: returns the maintained counter. -/
def LarouxCacheList.len (l : LarouxCacheList) : Int := l.listLen

/-- `_LarouxCacheList.peek`: returns `head.next`, the front node, or the
sentinel itself when the list is empty. -/
def LarouxCacheList.peek (l : LarouxCacheList) : ListNode :=
  l.nodes.headD sentinel

/-- `_LarouxCacheList.push`: link a fresh node at the front and increment
the counter. -/
def LarouxCacheList.push (l : LarouxCacheList) (k v : PyVal) : LarouxCacheList :=
  { nodes := { key := k, value := v } :: l.nodes, listLen := l.listLen + 1 }

/-- The loop of `_LarouxCacheList.find`: walk from the front; with
`value_search` set, a node matches if its value equals the needle, and
otherwise (the `elif` branch, reachable even under value search) if its
key equals the needle. -/
def findNode : List ListNode → PyVal → Bool → Option ListNode
  | [], _, _ => Option.none
  | n :: rest, needle, vs =>
      if vs && n.value == needle then some n
      else if n.key == needle then some n
      else findNode rest needle vs

/-- `_LarouxCacheList.find`. -/
def LarouxCacheList.find (l : LarouxCacheList) (needle : PyVal) (vs : Bool) :
    Option LarouxCacheList × Option ListNode :=
  (l, findNode l.nodes needle vs)

/-- Drop the first node structurally equal to the given one.  `find`
returns the first node satisfying its match predicate, and any node with
the same key and value satisfies the same predicate, so the first
structurally equal node is exactly the node `find` returned. -/
def removeFirst : List ListNode → ListNode → List ListNode
  | [], _ => []
  | m :: rest, n => if m == n then rest else m :: removeFirst rest n

/-- `_LarouxCacheList.remove`: given a node (as returned by `find`),
unlink it and decrement the counter, returning its value; given `None`,
do nothing and return `None`. -/
def LarouxCacheList.remove (l : LarouxCacheList) :
    Option ListNode → LarouxCacheList × Option PyVal
  | some n =>
      ({ nodes := removeFirst l.nodes n, listLen := l.listLen - 1 }, some n.value)
  | Option.none => (l, Option.none)

/-- `_LarouxCacheList.pop`: read `head.prev.value` (the sentinel's `None`
when empty), unlink the back node by relinking around it, and return the
value.  The source never decrements `_length` here, so the counter is
left unchanged. -/
def LarouxCacheList.pop (l : LarouxCacheList) : LarouxCacheList × PyVal :=
  ({ nodes := l.nodes.dropLast, listLen := l.listLen },
   (l.nodes.getLast?.getD sentinel).value)

/-- `LarouxCache`: the facade's `_max_size`, `_hash_table`, `_cache_list`
and `_length`. -/
structure LarouxCache where
  max_size : Int
  hash_table : List (PyVal × PyVal)
  cache_list : LarouxCacheList
  length : Int
  deriving DecidableEq

/-- `LarouxCache.__init__`: store `max_size` unvalidated (any integer is
accepted; the default argument is 32), with empty structures and length
zero. -/
def LarouxCache.new (max_size : Int) : LarouxCache :=
  { max_size := max_size
    hash_table := []
    cache_list := { nodes := [], listLen := 0 }
    length := 0 }

/-- `LarouxCache.__len__`: the facade's maintained counter. -/
def LarouxCache.len (c : LarouxCache) : Int := c.length

/-- `LarouxCache._evict`: when the facade counter exceeds `_max_size`,
read the back node `head.prev` (the sentinel when the physical list is
empty), remove its key from the hash table with a defaulted `pop` that
never fails, pop the back of the list, and decrement the facade
counter. -/
def LarouxCache.evict (c : LarouxCache) : LarouxCache :=
  if c.length > c.max_size then
    let last := c.cache_list.nodes.getLast?.getD sentinel
    { c with
        hash_table := htPop c.hash_table last.key
        cache_list := (c.cache_list.pop).1
        length := c.length - 1 }
  else c

/-- `LarouxCache.push` (the public `put`): bind the key in the hash table,
push a fresh node at the front of the list — without checking whether the
key is already present — increment the counter, then run `_evict` once.
The source's hashability guard tests membership of the string
`__hash__` in `dir(key)`, which holds for every Python object, so it
never raises for the embedded value types and is omitted. -/
def LarouxCache.push (c : LarouxCache) (k v : PyVal) : LarouxCache :=
  LarouxCache.evict
    { c with
        hash_table := htSet c.hash_table k v
        cache_list := c.cache_list.push k v
        length := c.length + 1 }

/-- `LarouxCache.peek`: the value of the front node, the sentinel's `None`
when the list is empty. -/
def LarouxCache.peek (c : LarouxCache) : PyVal :=
  (c.cache_list.peek).value

/-- `LarouxCache.__getitem__` (the public `get`): look the key up with
`dict.get(key, None)`; if the result is truthy, search the list by VALUE
for a matching node, remove it, and push a node `(key, retval)` at the
front.  A falsy result — whether a miss or a present falsy value — skips
the promotion.  Returns the new state and the returned value. -/
def LarouxCache.getitem (c : LarouxCache) (k : PyVal) : LarouxCache × PyVal :=
  let retval := (htGet c.hash_table k).getD PyVal.none
  if retval.truthy then
    let connected := (c.cache_list.find retval true).2
    let l1 := (c.cache_list.remove connected).1
    ({ c with cache_list := l1.push k retval }, retval)
  else
    (c, retval)

/-- The `while len(self._cache_list) > new_size` loop of
`LarouxCache.resize`, with explicit fuel: `Option.none` means the bound
was exhausted with the guard still true, i.e. the source loop has made at
least `fuel` iterations without exiting. -/
def resizeLoop (ns : Int) : Nat → LarouxCacheList → Option LarouxCacheList
  | 0, l => if l.listLen > ns then Option.none else some l
  | fuel + 1, l =>
      if l.listLen > ns then resizeLoop ns fuel (l.pop).1 else some l

/-- `LarouxCache.resize`: set `_max_size` unconditionally and without
validation, then pop from the list while its counter exceeds the new
size.  The hash table and the facade counter are not touched.  `fuel`
bounds the loop; `Option.none` means the loop did not finish within the
bound. -/
def LarouxCache.resize (c : LarouxCache) (new_size : Int) (fuel : Nat) :
    Option LarouxCache :=
  (resizeLoop new_size fuel c.cache_list).map
    (fun l => { c with max_size := new_size, cache_list := l })

/-- A sequence of `push` calls, applied left to right. -/
def LarouxCache.pushSeq (c : LarouxCache) (ops : List (PyVal × PyVal)) : LarouxCache :=
  ops.foldl (fun s kv => s.push kv.1 kv.2) c

/-- Public operations used when quantifying over operation sequences. -/
inductive Op where
  | pushOp (k v : PyVal) : Op
  | getOp (k : PyVal) : Op

/-- Apply one public operation to a cache state. -/
def LarouxCache.step (c : LarouxCache) : Op → LarouxCache
  | Op.pushOp k v => c.push k v
  | Op.getOp k => (c.getitem k).1

/-- Apply a sequence of public operations left to right. -/
def LarouxCache.run (c : LarouxCache) (ops : List Op) : LarouxCache :=
  ops.foldl LarouxCache.step c

/-
Helper lemmas.
-/

/-- One `push` keeps the facade counter at or below `_max_size`. -/
theorem push_length_le (c : LarouxCache) (k v : PyVal)
    (h : c.length ≤ c.max_size) : (c.push k v).length ≤ c.max_size := by
  unfold LarouxCache.push LarouxCache.evict
  by_cases hc : c.length + 1 > c.max_size
  · simp [hc]
    omega
  · simp [hc]
    omega

/-- `push` never changes `_max_size`. -/
theorem push_max_size (c : LarouxCache) (k v : PyVal) :
    (c.push k v).max_size = c.max_size := by
  unfold LarouxCache.push LarouxCache.evict
  by_cases hc : c.length + 1 > c.max_size
  · simp [hc]
  · simp [hc]

/-- Over any sequence of `push` calls, `_max_size` is constant and the
facade counter stays at or below it. -/
theorem pushSeq_inv (ops : List (PyVal × PyVal)) (c : LarouxCache)
    (h : c.length ≤ c.max_size) :
    (c.pushSeq ops).max_size = c.max_size ∧
      (c.pushSeq ops).length ≤ c.max_size := by
  induction ops generalizing c with
  | nil => exact ⟨rfl, h⟩
  | cons kv rest ih =>
      have hlen : (c.push kv.1 kv.2).length ≤ (c.push kv.1 kv.2).max_size := by
        rw [push_max_size]
        exact push_length_le c kv.1 kv.2 h
      have hrec := ih (c.push kv.1 kv.2) hlen
      have hstep : c.pushSeq (kv :: rest) = (c.push kv.1 kv.2).pushSeq rest := rfl
      rw [hstep]
      rw [hrec.1, push_max_size]
      exact ⟨rfl, by rw [push_max_size c kv.1 kv.2] at hrec; exact hrec.2⟩

/-- `pop` leaves the list's own counter unchanged (the source bug). -/
theorem pop_listLen (l : LarouxCacheList) : ((l.pop).1).listLen = l.listLen := rfl

/-- When the list counter exceeds the target size, the resize loop never
exits, for any fuel bound: `pop` does not decrease the counter. -/
theorem resizeLoop_none (ns : Int) (fuel : Nat) (l : LarouxCacheList)
    (h : ns < l.listLen) : resizeLoop ns fuel l = Option.none := by
  induction fuel generalizing l with
  | zero => simp [resizeLoop, h]
  | succ n ih =>
      simp only [resizeLoop, gt_iff_lt, if_pos h]
      exact ih (l.pop).1 (by rw [pop_listLen]; exact h)

/-- The state of a capacity-zero cache reachable by public operations:
empty hash table, empty physical list, facade counter zero. -/
def ZeroCapEmpty (c : LarouxCache) : Prop :=
  c.max_size = 0 ∧ c.hash_table = [] ∧ c.cache_list.nodes = [] ∧ c.length = 0

/-- One public operation on a capacity-zero empty cache returns a
capacity-zero empty cache: a `push` inserts and `_evict` immediately
removes the same node; a `get` misses and has no side effect. -/
theorem step_preserves_empty (c : LarouxCache) (op : Op)
    (h : ZeroCapEmpty c) : ZeroCapEmpty (c.step op) := by
  obtain ⟨h1, h2, h3, h4⟩ := h
  cases op with
  | pushOp k v =>
      unfold LarouxCache.step LarouxCache.push LarouxCache.evict
      simp only [h1, h2, h3, h4, LarouxCacheList.push, htSet]
      norm_num
      simp [ZeroCapEmpty, LarouxCacheList.pop, htPop, h1]
  | getOp k =>
      unfold LarouxCache.step LarouxCache.getitem
      simp only [h2, htGet, Option.getD]
      simp [PyVal.truthy]
      exact ⟨h1, h2, h3, h4⟩

/-- Any sequence of public operations preserves the capacity-zero empty
state. -/
theorem run_preserves_empty (ops : List Op) (c : LarouxCache)
    (h : ZeroCapEmpty c) : ZeroCapEmpty (c.run ops) := by
  induction ops generalizing c with
  | nil => exact h
  | cons op rest ih => exact ih (c.step op) (step_preserves_empty c op h)

/-
Concrete states used by individual claims.
-/

/-- Capacity-2 cache after `push(1, 0)` then `push(2, 5)`: key 1 holds the
falsy value 0. -/
def c2cache : LarouxCache :=
  ((LarouxCache.new 2).push (PyVal.int 1) (PyVal.int 0)).push (PyVal.int 2) (PyVal.int 5)

/-- Capacity-1 cache after `push("k", 1)` then `push("k", 2)`: the second
push triggers an eviction that removes key `"k"` from the hash table. -/
def c3cache1 : LarouxCache :=
  ((LarouxCache.new 1).push (PyVal.str "k") (PyVal.int 1)).push (PyVal.str "k") (PyVal.int 2)

/-- Capacity-2 cache after `push("k", 1)` then `push("k", 2)`: no eviction
fires, so the duplicate node for `"k"` survives. -/
def c3cache2 : LarouxCache :=
  ((LarouxCache.new 2).push (PyVal.str "k") (PyVal.int 1)).push (PyVal.str "k") (PyVal.int 2)

/-- Capacity-1 cache after `push(1, "a")` then `push(2, "b")`: the second
push evicts key 1. -/
def c4cache : LarouxCache :=
  ((LarouxCache.new 1).push (PyVal.int 1) (PyVal.str "a")).push (PyVal.int 2) (PyVal.str "b")

/-- Capacity-2 trace: `push(1, "a")`, `push(2, "b")`, `get(1)`,
`push(3, "c")`. -/
def c6cache : LarouxCache :=
  ((((LarouxCache.new 2).push (PyVal.int 1) (PyVal.str "a")).push
      (PyVal.int 2) (PyVal.str "b")).getitem (PyVal.int 1)).1.push
    (PyVal.int 3) (PyVal.str "c")

/-- Capacity-1 cache after `push(1, 10)` then `push(1, 20)`: the eviction
during the second push removes key 1 from the hash table while the node
`(1, 20)` stays in the list, so the list's back key is absent from the
index. -/
def c9cache : LarouxCache :=
  ((LarouxCache.new 1).push (PyVal.int 1) (PyVal.int 10)).push (PyVal.int 1) (PyVal.int 20)

/-- Capacity-2 cache holding one entry, used to exercise the shrinking
resize loop. -/
def c8cache : LarouxCache :=
  (LarouxCache.new 2).push (PyVal.int 1) (PyVal.str "a")

/-
Claim theorems.
-/

/-- Claim C1: for every cache constructed with capacity at least 1, after
every call in any sequence of `put` operations, `len() <= capacity`
holds.  Any point after a call is the state of `pushSeq` on a prefix,
itself an arbitrary sequence, so quantifying over the sequence covers
every intermediate state. -/
theorem capacity_invariant (cap : Int) (h : 1 ≤ cap)
    (ops : List (PyVal × PyVal)) :
    ((LarouxCache.new cap).pushSeq ops).len ≤ cap := by
  have h0 : (LarouxCache.new cap).length ≤ (LarouxCache.new cap).max_size := by
    simp [LarouxCache.new]
    omega
  have hinv := pushSeq_inv ops (LarouxCache.new cap) h0
  exact hinv.2

/-- Witness for C1 at capacity 2 and a concrete three-put sequence. -/
theorem capacity_invariant_witness :
    (1 : Int) ≤ 2 ∧
      ((LarouxCache.new 2).pushSeq
          [(PyVal.int 1, PyVal.str "a"), (PyVal.int 2, PyVal.str "b"),
           (PyVal.int 3, PyVal.str "c")]).len ≤ 2 :=
  ⟨by decide,
   capacity_invariant 2 (by decide)
     [(PyVal.int 1, PyVal.str "a"), (PyVal.int 2, PyVal.str "b"),
      (PyVal.int 3, PyVal.str "c")]⟩

/-- Claim C2 (code bug): in `c2cache`, key 1 is present with value 0, and
`get(1)` returns 0; but because 0 is falsy, `__getitem__` skips the
promotion entirely: the state is unchanged, `peek()` afterwards returns 5
rather than 0, and key 2 — not key 1 — remains the most-recently-used
entry.  This refutes the claim that after `get(k)` on a present key a
subsequent `peek()` returns the same value and `k` becomes
most-recently-used. -/
theorem get_falsy_no_promotion :
    htGet c2cache.hash_table (PyVal.int 1) = some (PyVal.int 0) ∧
      (c2cache.getitem (PyVal.int 1)).2 = PyVal.int 0 ∧
      ((c2cache.getitem (PyVal.int 1)).1).peek = PyVal.int 5 ∧
      (c2cache.getitem (PyVal.int 1)).1 = c2cache := by decide

/-- Claim C3 (code bug): at capacity 1, `put("k", 1)` then `put("k", 2)`
makes the eviction during the second push delete key `"k"` from the hash
table, so `get("k")` returns `None`, not the new value 2; at capacity 2
the same pair of puts leaves `len() = 2` (double count) and two list
nodes for `"k"` (a duplicate node). -/
theorem overwrite_not_idempotent :
    (c3cache1.getitem (PyVal.str "k")).2 = PyVal.none ∧
      c3cache2.len = 2 ∧
      c3cache2.cache_list.nodes =
        [{ key := PyVal.str "k", value := PyVal.int 2 },
         { key := PyVal.str "k", value := PyVal.int 1 }] := by decide

/-- Claim C4 (code bug): after `push(1, "a")`, `push(2, "b")` on a
capacity-1 cache, the facade counter is 1 and the hash table holds 1
binding, but the list's own counter is 2, because `_LarouxCacheList.pop`
(used by the eviction) removes the back node without decrementing
`_length`.  The three counts diverge. -/
theorem length_counters_diverge :
    c4cache.len = 1 ∧
      (c4cache.cache_list).len = 2 ∧
      (c4cache.hash_table.length : Int) = 1 := by decide

/-- Claim C5: `put("x", 0)` stores the falsy value 0, and `get("x")`
returns 0 itself, while `get` on the same key of a cache that never held
it returns `None`; the two results are distinct values, so presence with
a falsy value is distinguishable from absence in the returned value. -/
theorem falsy_value_retrieval :
    (((LarouxCache.new 32).push (PyVal.str "x") (PyVal.int 0)).getitem
        (PyVal.str "x")).2 = PyVal.int 0 ∧
      ((LarouxCache.new 32).getitem (PyVal.str "x")).2 = PyVal.none ∧
      PyVal.int 0 ≠ PyVal.none := by decide

/-- Claim C6: in a capacity-2 cache, `put(1, "a")`, `put(2, "b")`,
`get(1)`, `put(3, "c")` evicts key 2 and not key 1: the hash table no
longer binds key 2, `get(2)` returns `None`, and subsequent `get(1)` and
`get(3)` return `"a"` and `"c"`. -/
theorem access_protects_from_eviction :
    htGet c6cache.hash_table (PyVal.int 2) = Option.none ∧
      (c6cache.getitem (PyVal.int 2)).2 = PyVal.none ∧
      (((c6cache.getitem (PyVal.int 2)).1).getitem (PyVal.int 1)).2 =
        PyVal.str "a" ∧
      (((((c6cache.getitem (PyVal.int 2)).1).getitem (PyVal.int 1)).1).getitem
          (PyVal.int 3)).2 = PyVal.str "c" := by decide

/-- Claim C7 (code bug): `__init__` performs no capacity validation —
constructing with `max_size = 0` yields a normal empty cache state, and
`resize(0)` on an empty cache runs to completion returning a normal
state, identical to a fresh capacity-0 cache; no `InvalidConfiguration`
failure exists anywhere on these paths. -/
theorem no_capacity_validation :
    LarouxCache.new 0 =
      { max_size := 0, hash_table := [],
        cache_list := { nodes := [], listLen := 0 }, length := 0 } ∧
      (LarouxCache.new 2).resize 0 1 = some (LarouxCache.new 0) := by decide

/-- Claim C8 (code bug): `resize(0)` on a cache holding one entry never
terminates: the loop guard compares the list's `_length` counter, which
`pop` never decrements, so for every fuel bound the loop is still
running.  This refutes the claim that every operation runs to
completion. -/
theorem resize_never_terminates (fuel : Nat) :
    c8cache.resize 0 fuel = Option.none := by
  have h : (0 : Int) < c8cache.cache_list.listLen := by decide
  unfold LarouxCache.resize
  rw [resizeLoop_none 0 fuel c8cache.cache_list h]
  rfl

/-- Claim C9 (code bug): in `c9cache` the list's back node carries key 1
while the hash table does not bind key 1; the next `push` evicts that
node, and because `_evict` uses `dict.pop(key, "oops")` with a default it
completes normally — length 1, hash table holding only the new key — with
no error of any kind propagated for the index/list mismatch. -/
theorem evict_swallows_missing_key :
    htGet c9cache.hash_table (PyVal.int 1) = Option.none ∧
      ((c9cache.cache_list.nodes.getLast?).getD sentinel).key = PyVal.int 1 ∧
      (c9cache.push (PyVal.int 2) (PyVal.int 30)).len = 1 ∧
      (c9cache.push (PyVal.int 2) (PyVal.int 30)).hash_table =
        [(PyVal.int 2, PyVal.int 30)] := by decide

/-- Claim C10: a cache constructed with `max_size = 0` is accepted, and
after any sequence of public operations it has `len() = 0`, an empty
physical list (each `push` inserts a node that the immediate eviction
removes again), and `get(k)` returns `None` for every key. -/
theorem zero_capacity_cache_always_empty (ops : List Op) (k : PyVal) :
    ((LarouxCache.new 0).run ops).len = 0 ∧
      ((LarouxCache.new 0).run ops).cache_list.nodes = [] ∧
      (((LarouxCache.new 0).run ops).getitem k).2 = PyVal.none := by
  have h := run_preserves_empty ops (LarouxCache.new 0) ⟨rfl, rfl, rfl, rfl⟩
  obtain ⟨h1, h2, h3, h4⟩ := h
  refine ⟨h4, h3, ?_⟩
  simp [LarouxCache.getitem, h2, htGet, PyVal.truthy]
